import Mathlib

/-!
Verification development for the Primitiv desktop widget.

The definitions below are shallow embeddings of the program's window-geometry
routines, auth/session service, drag-reorder scoring, sleep timer, sync
throttle and API response handling.  Pixel coordinates and scores are modelled
as rationals (the source works with JS numbers); storage and machine state are
explicit records; network effects are oracles passed as arguments.
-/

namespace Geometry

/-- One axis of `ensureWidgetInBounds` (main process): if the coordinate is
below `margin` move it to `margin`, else if the window overhangs
`screenLen - margin` move it flush to `screenLen - winLen - margin`, else keep
it.  Mirrors the if/else-if chain of the source. -/
def ensureAxis (margin screenLen winLen current : ℚ) : ℚ :=
  if current < margin then margin
  else if current + winLen > screenLen - margin then screenLen - winLen - margin
  else current

/-- `ensureWidgetInBounds`: clamp the widget position to the screen work area
with the source's fixed margin parameterised.  The source reads the current
position and size from the window handle and writes the adjusted position back;
we model it as the position transformer. -/
def ensureWidgetInBounds (margin screenW screenH widgetW widgetH : ℚ)
    (p : ℚ × ℚ) : ℚ × ℚ :=
  (ensureAxis margin screenW widgetW p.1, ensureAxis margin screenH widgetH p.2)

/-- The margin constant used by `ensureWidgetInBounds` and the `move-widget`
handler in the source. -/
def widgetMargin : ℚ := 8

/-- One axis of the `move-widget` IPC handler's clamp:
`Math.max(margin, Math.min(new, screen - size - margin))`. -/
def moveAxis (margin screenLen winLen target : ℚ) : ℚ :=
  max margin (min target (screenLen - winLen - margin))

/-- `move-widget` IPC handler: add the drag delta to the current position and
clamp each axis with `moveAxis`. -/
def moveWidget (margin screenW screenH widgetW widgetH : ℚ)
    (p : ℚ × ℚ) (deltaX deltaY : ℚ) : ℚ × ℚ :=
  (moveAxis margin screenW widgetW (p.1 + deltaX),
   moveAxis margin screenH widgetH (p.2 + deltaY))

/-- The gap constant of the `calculate-main-window-position` IPC handler. -/
def panelGap : ℚ := 12

/-- Final bounds check of the `calculate-main-window-position` handler:
`x = Math.max(gap, Math.min(x, screenWidth - mainWindowWidth - gap))` and the
same for y. -/
def finalBoundsCheck (screenW screenH gap mainWindowWidth mainWindowHeight : ℚ)
    (raw : ℚ × ℚ × String) : ℚ × ℚ × String :=
  (max gap (min raw.1 (screenW - mainWindowWidth - gap)),
   max gap (min raw.2.1 (screenH - mainWindowHeight - gap)),
   raw.2.2)

/-- `calculate-main-window-position` IPC handler: place the main (panel)
window beside the widget (anchor).  Branches: flush right when there is room,
else flush left when there is room, else right with the vertical coordinate
adjusted; in all cases the resulting x and y are finally clamped into
`[gap, screen - size - gap]`.  Inputs mirror the source: the widget window
position plus the DOM rect of the visible widget inside it. -/
def calculateMainWindowPosition
    (screenW screenH gap mainWindowWidth mainWindowHeight : ℚ)
    (widgetWinX widgetWinY rectLeft rectTop rectWidth : ℚ) :
    ℚ × ℚ × String :=
  let widgetScreenX := widgetWinX + rectLeft
  let widgetScreenY := widgetWinY + rectTop
  let widgetScreenRight := widgetScreenX + rectWidth
  let spaceRight := screenW - widgetScreenRight - gap
  let spaceLeft := widgetScreenX - gap
  let raw : ℚ × ℚ × String :=
    if spaceRight ≥ mainWindowWidth then
      (widgetScreenRight + gap, widgetScreenY, "position-right")
    else if spaceLeft ≥ mainWindowWidth then
      (widgetScreenX - mainWindowWidth - gap, widgetScreenY, "position-left")
    else
      (widgetScreenRight + gap,
       if widgetScreenY + mainWindowHeight > screenH then
         screenH - mainWindowHeight - gap
       else widgetScreenY,
       "position-right-adjusted")
  finalBoundsCheck screenW screenH gap mainWindowWidth mainWindowHeight raw

theorem ensureAxis_idem (margin screenLen winLen current : ℚ)
    (h : winLen + 2 * margin ≤ screenLen) :
    ensureAxis margin screenLen winLen (ensureAxis margin screenLen winLen current)
      = ensureAxis margin screenLen winLen current := by
  unfold ensureAxis
  split_ifs <;> linarith

/-- C7 counterexample: with the source's margin 8, a 99-wide widget on a
100-wide screen (so width < screenWidth as the claim requires) starting at
x = 0 is first clamped to x = 8, and clamping again moves it to x = -7, so
the clamp applied twice differs from the clamp applied once. -/
theorem clampToScreen_not_idempotent :
    (99 : ℚ) < 100 ∧ (10 : ℚ) < 100 ∧
    ensureWidgetInBounds 8 100 100 99 10
        (ensureWidgetInBounds 8 100 100 99 10 (0, 20))
      ≠ ensureWidgetInBounds 8 100 100 99 10 (0, 20) := by
  refine ⟨by norm_num, by norm_num, ?_⟩
  simp only [ensureWidgetInBounds, ensureAxis]
  norm_num

/-- C7 (amended): the bounds clamp of `ensureWidgetInBounds` is idempotent
provided the widget fits with its margins, i.e. width + 2*margin ≤ screenWidth
and height + 2*margin ≤ screenHeight. -/
theorem clampToScreen_idempotent (margin screenW screenH widgetW widgetH : ℚ)
    (p : ℚ × ℚ)
    (hw : widgetW + 2 * margin ≤ screenW) (hh : widgetH + 2 * margin ≤ screenH) :
    ensureWidgetInBounds margin screenW screenH widgetW widgetH
        (ensureWidgetInBounds margin screenW screenH widgetW widgetH p)
      = ensureWidgetInBounds margin screenW screenH widgetW widgetH p := by
  unfold ensureWidgetInBounds
  exact Prod.ext (ensureAxis_idem margin screenW widgetW p.1 hw)
    (ensureAxis_idem margin screenH widgetH p.2 hh)

/-- C7 witness: the amended idempotence theorem applied at the source's own
constants (margin 8, widget 54x110) on a 1000x700 screen. -/
theorem clampToScreen_idempotent_witness :
    (54 : ℚ) + 2 * 8 ≤ 1000 ∧ (110 : ℚ) + 2 * 8 ≤ 700 ∧
    ensureWidgetInBounds 8 1000 700 54 110
        (ensureWidgetInBounds 8 1000 700 54 110 (0, 2000))
      = ensureWidgetInBounds 8 1000 700 54 110 (0, 2000) :=
  ⟨by norm_num, by norm_num,
    clampToScreen_idempotent 8 1000 700 54 110 (0, 2000) (by norm_num) (by norm_num)⟩

/-- C4 counterexample: on a 100x100 screen with the source's gap 12 and the
default 698x500 panel, the placement for a widget at the screen origin returns
x = 12, whose right edge 12 + 698 = 710 exceeds screenWidth - gap = 88. -/
theorem placePanel_exceeds_bounds :
    (calculateMainWindowPosition 100 100 12 698 500 0 0 0 0 54).1 + 698
      > 100 - 12 := by
  simp only [calculateMainWindowPosition, finalBoundsCheck]
  norm_num

theorem finalBoundsCheck_bounds
    (screenW screenH gap mainWindowWidth mainWindowHeight : ℚ)
    (raw : ℚ × ℚ × String)
    (hw : mainWindowWidth + 2 * gap ≤ screenW)
    (hh : mainWindowHeight + 2 * gap ≤ screenH) :
    (finalBoundsCheck screenW screenH gap mainWindowWidth mainWindowHeight
        raw).1 + mainWindowWidth ≤ screenW - gap ∧
    (finalBoundsCheck screenW screenH gap mainWindowWidth mainWindowHeight
        raw).2.1 + mainWindowHeight ≤ screenH - gap := by
  unfold finalBoundsCheck
  constructor
  · have h1 : max gap (min raw.1 (screenW - mainWindowWidth - gap))
        ≤ screenW - mainWindowWidth - gap :=
      max_le (by linarith) (min_le_right _ _)
    simpa using by linarith
  · have h1 : max gap (min raw.2.1 (screenH - mainWindowHeight - gap))
        ≤ screenH - mainWindowHeight - gap :=
      max_le (by linarith) (min_le_right _ _)
    simpa using by linarith

/-- C4 (amended): whenever the panel fits on the screen together with its gap
on both sides (width + 2*gap ≤ screenWidth and height + 2*gap ≤ screenHeight),
the computed placement keeps the panel's right and bottom edges within
`screenSize - gap`, for every anchor-window position, because every branch ends
with the global clamp of (x, y) into `[gap, screen - size - gap]`. -/
theorem placePanel_within_bounds
    (screenW screenH gap mainWindowWidth mainWindowHeight : ℚ)
    (widgetWinX widgetWinY rectLeft rectTop rectWidth : ℚ)
    (hw : mainWindowWidth + 2 * gap ≤ screenW)
    (hh : mainWindowHeight + 2 * gap ≤ screenH) :
    (calculateMainWindowPosition screenW screenH gap mainWindowWidth
        mainWindowHeight widgetWinX widgetWinY rectLeft rectTop rectWidth).1
        + mainWindowWidth ≤ screenW - gap ∧
    (calculateMainWindowPosition screenW screenH gap mainWindowWidth
        mainWindowHeight widgetWinX widgetWinY rectLeft rectTop rectWidth).2.1
        + mainWindowHeight ≤ screenH - gap := by
  unfold calculateMainWindowPosition
  exact finalBoundsCheck_bounds screenW screenH gap mainWindowWidth
    mainWindowHeight _ hw hh

/-- C4 witness: the amended bounds theorem applied at a 1000x800 screen, the
source's gap 12 and default 698x500 panel, with the anchor at the bottom-right
corner. -/
theorem placePanel_within_bounds_witness :
    (698 : ℚ) + 2 * 12 ≤ 1000 ∧ (500 : ℚ) + 2 * 12 ≤ 800 ∧
    ((calculateMainWindowPosition 1000 800 12 698 500 946 690 0 0 54).1 + 698
        ≤ 1000 - 12 ∧
     (calculateMainWindowPosition 1000 800 12 698 500 946 690 0 0 54).2.1 + 500
        ≤ 800 - 12) :=
  ⟨by norm_num, by norm_num,
    placePanel_within_bounds 1000 800 12 698 500 946 690 0 0 54
      (by norm_num) (by norm_num)⟩

end Geometry

namespace Sleep

/-- Main-process sleep-mode state: the `isSleeping` flag, whether the
`sleepTimer` interval handle is live, the closure variable `totalMinutes`, the
widget window opacity, the main window visibility, and a count of
`sleep-mode-ended` broadcasts (each `wakeUp` sends one broadcast to the main
and widget windows; we count the broadcast once). -/
structure SleepState where
  isSleeping : Bool
  timerActive : Bool
  totalMinutes : ℕ
  widgetOpacity : ℚ
  mainVisible : Bool
  endedCount : ℕ
  deriving DecidableEq

/-- State before any sleep command: awake, full opacity, main window shown. -/
def initial : SleepState :=
  { isSleeping := false, timerActive := false, totalMinutes := 0,
    widgetOpacity := 1, mainVisible := true, endedCount := 0 }

/-- The `start-sleep-mode` IPC handler: an early return when already sleeping;
otherwise set `isSleeping`, compute `totalMinutes = hours*60 + minutes`, dim
the widget to opacity 0.7, hide the main window and install the countdown
interval. -/
def startSleepMode (hours minutes : ℕ) (s : SleepState) : SleepState :=
  if s.isSleeping then s
  else
    { s with
      isSleeping := true
      timerActive := true
      totalMinutes := hours * 60 + minutes
      widgetOpacity := 7 / 10
      mainVisible := false }

/-- `wakeUp`: clear the flag and the interval, restore opacity 1.0, show the
main window, and broadcast `sleep-mode-ended`. -/
def wakeUp (s : SleepState) : SleepState :=
  { s with
    isSleeping := false
    timerActive := false
    widgetOpacity := 1
    mainVisible := true
    endedCount := s.endedCount + 1 }

/-- One firing of the countdown interval: when `totalMinutes > 0` decrement it
(and send a remaining-time update), otherwise call `wakeUp`.  The interval only
fires while its handle is live. -/
def sleepTick (s : SleepState) : SleepState :=
  if s.timerActive then
    if s.totalMinutes > 0 then { s with totalMinutes := s.totalMinutes - 1 }
    else wakeUp s
  else s

set_option maxRecDepth 8000 in
/-- C2 counterexample: after `start(1,30)` and exactly 90 minute-ticks the
timer is still in the sleeping state and no `sleep-mode-ended` broadcast has
been sent: the 90th tick only brings the counter to 0, and the wake-up happens
on the following tick. -/
theorem sleep_90_ticks_still_sleeping :
    (sleepTick^[90] (startSleepMode 1 30 initial)).isSleeping = true ∧
    (sleepTick^[90] (startSleepMode 1 30 initial)).endedCount = 0 := by
  decide

set_option maxRecDepth 100000 in
/-- C2 (amended): after `start(1,30)`, the timer stays sleeping with no ended
broadcast through the first 90 minute-ticks, and the 91st tick reaches the
idle state, emitting exactly one `sleep-mode-ended` broadcast. -/
theorem sleep_91_ticks_ends_once :
    (∀ k, k ≤ 90 →
      (sleepTick^[k] (startSleepMode 1 30 initial)).isSleeping = true ∧
      (sleepTick^[k] (startSleepMode 1 30 initial)).endedCount = 0) ∧
    (sleepTick^[91] (startSleepMode 1 30 initial)).isSleeping = false ∧
    (sleepTick^[91] (startSleepMode 1 30 initial)).endedCount = 1 := by
  decide

/-- C2 witness: the amended theorem instantiated at tick 90. -/
theorem sleep_91_ticks_ends_once_witness :
    (sleepTick^[90] (startSleepMode 1 30 initial)).endedCount = 0 :=
  (sleep_91_ticks_ends_once.1 90 (by norm_num)).2

/-- C10: a `start-sleep-mode` request received while a countdown is active is
a no-op: the whole state (remaining minutes, widget opacity, window
visibility, interval) is unchanged, so at most one sleep timer is active. -/
theorem startSleepMode_noop_when_sleeping (hours minutes : ℕ) (s : SleepState)
    (h : s.isSleeping = true) : startSleepMode hours minutes s = s := by
  simp [startSleepMode, h]

/-- C10 witness: starting sleep again during an active 1:30 countdown changes
nothing. -/
theorem startSleepMode_noop_witness :
    (startSleepMode 1 30 initial).isSleeping = true ∧
    startSleepMode 2 5 (startSleepMode 1 30 initial) = startSleepMode 1 30 initial :=
  ⟨by decide, startSleepMode_noop_when_sleeping 2 5 (startSleepMode 1 30 initial) (by decide)⟩

end Sleep

namespace Sync

/-- `SYNC_COOLDOWN_MS = 5 * 60 * 1000` (5 minutes), in milliseconds. -/
def SYNC_COOLDOWN_MS : ℤ := 5 * 60 * 1000

/-- Renderer-side sync throttle state: `lastSyncTime` (epoch ms; initially 0),
the in-flight flag, and whether the guard `apiClient && authService.isAuthenticated()`
holds. -/
structure SyncState where
  lastSyncTime : ℤ
  syncInProgress : Bool
  authenticated : Bool
  deriving DecidableEq

/-- A completed run of `triggerSyncOnOpen` at wall-clock time `now`: bail out
when unauthenticated, when a sync is in flight, or when inside the cooldown
window; otherwise record `lastSyncTime := now` and issue the outbound trigger
requests.  The in-flight flag is set at the start and reset in the `finally`
block, so a run that completes leaves it false.  The returned Bool records
whether the outbound request was issued. -/
def triggerSyncOnOpen (now : ℤ) (s : SyncState) : SyncState × Bool :=
  if ¬ s.authenticated then (s, false)
  else if s.syncInProgress then (s, false)
  else if now - s.lastSyncTime < SYNC_COOLDOWN_MS then (s, false)
  else ({ s with lastSyncTime := now, syncInProgress := false }, true)

/-- C9: if a sync trigger proceeds at time t0, a second trigger less than
5 minutes after t0 is a no-op (no request, state unchanged), while a trigger
at least 5 minutes after t0 proceeds and issues the request. -/
theorem triggerSync_cooldown (s : SyncState) (t0 t1 t2 : ℤ)
    (hauth : s.authenticated = true) (hbusy : s.syncInProgress = false)
    (hfirst : SYNC_COOLDOWN_MS ≤ t0 - s.lastSyncTime)
    (hclose : t1 - t0 < SYNC_COOLDOWN_MS)
    (hfar : SYNC_COOLDOWN_MS ≤ t2 - t0) :
    (triggerSyncOnOpen t0 s).2 = true ∧
    triggerSyncOnOpen t1 (triggerSyncOnOpen t0 s).1 = ((triggerSyncOnOpen t0 s).1, false) ∧
    (triggerSyncOnOpen t2 (triggerSyncOnOpen t0 s).1).2 = true := by
  have h0 : ¬ (t0 - s.lastSyncTime < SYNC_COOLDOWN_MS) := not_lt.mpr hfirst
  refine ⟨?_, ?_, ?_⟩ <;>
    simp [triggerSyncOnOpen, hauth, hbusy, h0, hclose, not_lt.mpr hfar]

/-- C9 witness: from a fresh state, a trigger at t = 300000 ms proceeds, a
second at t = 500000 ms (200 s later) is a no-op, and one at t = 600001 ms
(300.001 s later) proceeds. -/
theorem triggerSync_cooldown_witness :
    (triggerSyncOnOpen 300000 ⟨0, false, true⟩).2 = true ∧
    triggerSyncOnOpen 500000 (triggerSyncOnOpen 300000 ⟨0, false, true⟩).1
      = ((triggerSyncOnOpen 300000 ⟨0, false, true⟩).1, false) ∧
    (triggerSyncOnOpen 600001 (triggerSyncOnOpen 300000 ⟨0, false, true⟩).1).2 = true :=
  triggerSync_cooldown ⟨0, false, true⟩ 300000 500000 600001 rfl rfl
    (by norm_num [SYNC_COOLDOWN_MS]) (by norm_num [SYNC_COOLDOWN_MS])
    (by norm_num [SYNC_COOLDOWN_MS])

end Sync

namespace DragReorder

/-- JS `parseFloat(attr) || 1` on a data-ricu attribute: a parsed value of 0
falls back to 1 (NaN, the other falsy parse result, has no counterpart in ℚ
and is not modelled). -/
def orOne (q : ℚ) : ℚ := if q = 0 then 1 else q

/-- `Math.round(x * 100) / 100`: round to 2 decimal places.  `Math.round`
rounds halves toward positive infinity, exactly as Mathlib's `round`. -/
def round2 (q : ℚ) : ℚ := ((round (q * 100) : ℤ) : ℚ) / 100

/-- New-score computation of `handleMouseUp` in `setupTaskDragAndDrop`:
`ricus` lists the data-ricu values of the task rows after the move (the
dragged task sits at position `newIndex`), `draggedRicu` is the dragged row's
own data-ricu value.  Branches of the source: single row keeps its score; top
gets `min(50, next + 0.5)`; bottom gets `max(0.51, prev - 0.5)`; in between
gets the average of the two neighbours; then the result is clamped to
`[0.51, 50]` and rounded to 2 decimal places. -/
def computeNewRicu (ricus : List ℚ) (newIndex : ℕ) (draggedRicu : ℚ) : ℚ :=
  round2 (min 50 (max (51 / 100)
    (if ricus.length = 1 then orOne draggedRicu
     else if newIndex = 0 then min 50 (orOne (ricus.getD 1 0) + 1 / 2)
     else if newIndex = ricus.length - 1 then
       max (51 / 100) (orOne (ricus.getD (newIndex - 1) 0) - 1 / 2)
     else (orOne (ricus.getD (newIndex - 1) 0) + orOne (ricus.getD (newIndex + 1) 0)) / 2)))

theorem round2_intCast_div (m : ℤ) : round2 ((m : ℚ) / 100) = (m : ℚ) / 100 := by
  unfold round2
  rw [div_mul_cancel₀ _ (by norm_num : (100 : ℚ) ≠ 0), round_intCast]

theorem round2_clamped_bounds (x : ℚ) :
    51 / 100 ≤ round2 (min 50 (max (51 / 100) x)) ∧
    round2 (min 50 (max (51 / 100) x)) ≤ 50 ∧
    ∃ k : ℤ, round2 (min 50 (max (51 / 100) x)) = (k : ℚ) / 100 := by
  set c := min 50 (max (51 / 100) x) with hc
  have hc1 : 51 / 100 ≤ c := le_min (by norm_num) (le_max_left _ _)
  have hc2 : c ≤ 50 := min_le_left _ _
  have hk1 : (51 : ℤ) ≤ round (c * 100) := by
    rw [round_eq]
    rw [show ((51 : ℤ) : ℤ) = 51 from rfl]
    have : (51 : ℚ) ≤ c * 100 + 1 / 2 := by nlinarith
    exact Int.le_floor.mpr (by exact_mod_cast this)
  have hk2 : round (c * 100) ≤ 5000 := by
    rw [round_eq]
    have : c * 100 + 1 / 2 < (5001 : ℚ) := by nlinarith
    have h5 : (⌊c * 100 + 1 / 2⌋ : ℤ) < 5001 := Int.floor_lt.mpr (by exact_mod_cast this)
    omega
  have hq1 : (51 : ℚ) ≤ (round (c * 100) : ℤ) := by exact_mod_cast hk1
  have hq2 : ((round (c * 100) : ℤ) : ℚ) ≤ 5000 := by exact_mod_cast hk2
  refine ⟨?_, ?_, ⟨round (c * 100), rfl⟩⟩
  · unfold round2
    linarith
  · unfold round2
    linarith

/-- C3: for any drag reorder in a list of at least two rows whose scores lie
in [0.51, 50], the newly computed score lies in [0.51, 50] and is a value with
at most 2 decimal places. -/
theorem dragReorder_score_bounds (ricus : List ℚ) (newIndex : ℕ) (draggedRicu : ℚ)
    (_hn : 2 ≤ ricus.length)
    (_hr : ∀ r ∈ ricus, 51 / 100 ≤ r ∧ r ≤ 50) :
    51 / 100 ≤ computeNewRicu ricus newIndex draggedRicu ∧
    computeNewRicu ricus newIndex draggedRicu ≤ 50 ∧
    ∃ k : ℤ, computeNewRicu ricus newIndex draggedRicu = (k : ℚ) / 100 := by
  unfold computeNewRicu
  exact round2_clamped_bounds _

/-- C3 witness: the bounds theorem applied to the list [10, 6, 2] with the
dragged row placed in the middle. -/
theorem dragReorder_score_bounds_witness :
    2 ≤ ([10, 6, 2] : List ℚ).length ∧
    (51 / 100 ≤ computeNewRicu [10, 6, 2] 1 6 ∧
     computeNewRicu [10, 6, 2] 1 6 ≤ 50 ∧
     ∃ k : ℤ, computeNewRicu [10, 6, 2] 1 6 = (k : ℚ) / 100) :=
  ⟨by norm_num,
    dragReorder_score_bounds [10, 6, 2] 1 6 (by norm_num)
      (by intro r hr; simp only [List.mem_cons, List.not_mem_nil, or_false] at hr
          rcases hr with h | h | h <;> subst h <;> norm_num)⟩

/-- C5 counterexample: dragging a task to index 0 above a neighbour whose
score is 10.001 yields 10.5 (the 2-decimal rounding applies), not
min(50, 10.001 + 0.5) = 10.501 as the claim states. -/
theorem dragToTop_not_exact :
    computeNewRicu [2, 10001 / 1000] 0 2 ≠ min 50 ((10001 : ℚ) / 1000 + 1 / 2) := by
  have hlhs : computeNewRicu [2, 10001 / 1000] 0 2 = 21 / 2 := by
    unfold computeNewRicu orOne
    norm_num
    unfold round2
    rw [round_eq]
    rw [show ((10501 : ℚ) / 1000 * 100 + 1 / 2) = 21012 / 20 by norm_num]
    rw [show ⌊(21012 : ℚ) / 20⌋ = 1050 from by
      rw [Int.floor_eq_iff]
      norm_num]
    norm_num
  rw [hlhs, min_eq_right (by norm_num : (10001 : ℚ) / 1000 + 1 / 2 ≤ 50)]
  norm_num

/-- C5 (amended): dragging a task to index 0 in a list of n ≥ 2 rows whose
neighbour-below score is a 2-decimal value in [0.51, 50] yields exactly
min(50, neighbourBelow + 0.5); in particular the scenario [10, 6, 2] with the
last task dragged to the top yields 10.5. -/
theorem dragToTop_eq (ricus : List ℚ) (draggedRicu : ℚ) (k : ℤ)
    (hn : 2 ≤ ricus.length) (hb : ricus.getD 1 0 = (k : ℚ) / 100)
    (hk1 : 51 ≤ k) (hk2 : k ≤ 5000) :
    computeNewRicu ricus 0 draggedRicu = min 50 (ricus.getD 1 0 + 1 / 2) := by
  have hkq1 : (51 : ℚ) ≤ (k : ℚ) := by exact_mod_cast hk1
  have hkq2 : ((k : ℤ) : ℚ) ≤ 5000 := by exact_mod_cast hk2
  have hne : ricus.getD 1 0 ≠ 0 := by
    rw [hb]
    have : (0 : ℚ) < (k : ℚ) / 100 := by linarith
    exact this.ne'
  have h1 : ricus.length ≠ 1 := by omega
  unfold computeNewRicu
  rw [if_neg h1, if_pos rfl]
  unfold orOne
  rw [if_neg hne, hb]
  have hlow : (101 : ℚ) / 100 ≤ min 50 ((k : ℚ) / 100 + 1 / 2) :=
    le_min (by norm_num) (by linarith)
  rw [max_eq_right (by linarith), min_eq_right (min_le_left _ _)]
  rcases min_cases (50 : ℚ) ((k : ℚ) / 100 + 1 / 2) with ⟨h50, _⟩ | ⟨hkk, _⟩
  · rw [h50]
    have h := round2_intCast_div 5000
    norm_num at h
    exact h
  · rw [hkk]
    rw [show ((k : ℚ) / 100 + 1 / 2) = ((k + 50 : ℤ) : ℚ) / 100 from by push_cast; ring]
    exact round2_intCast_div _

/-- C5 witness: the amended theorem instantiated at the scenario list
[10, 6, 2] with the last task (score 2) dragged to the top: the rows after the
move are [2, 10, 6] and the new score is min(50, 10 + 0.5) = 10.5. -/
theorem dragToTop_eq_witness :
    computeNewRicu [2, 10, 6] 0 2 = 21 / 2 := by
  have h := dragToTop_eq [2, 10, 6] 2 1000 (by norm_num)
    (by simp [List.getD]; norm_num) (by norm_num) (by norm_num)
  rw [h]
  simp [List.getD]
  norm_num

end DragReorder

namespace ApiClient

/-- Typed error taxonomy raised by `handleResponse`/`makeRequest`.  The source
throws plain `Error` objects; the branches are distinguished here by the
construction site: the 429 branch, the non-JSON/parse branches, and the
non-2xx branch. -/
inductive ApiError where
  | rateLimit (message : String)
  | validation (message : String)
  | http (message : String)
  deriving DecidableEq

/-- The parsed JSON body: its optional `data` property (abstracted to a
string payload) and optional `message` property. -/
structure JsonBody where
  dataField : Option String
  message : Option String
  deriving DecidableEq

/-- The success envelope `{status: 'success', data: data.data || data,
message: data.message}` returned by `handleResponse`. -/
structure Envelope where
  status : String
  data : String
  message : Option String
  deriving DecidableEq

/-- An HTTP response as seen by `handleResponse`: status code and text, a flag
for `contentType && contentType.includes('application/json')`, the body text,
and the body's JSON parse when it is valid JSON. -/
structure HttpResponse where
  status : ℕ
  statusText : String
  contentTypeJson : Bool
  bodyText : String
  json : Option JsonBody
  deriving DecidableEq

/-- JS `s || dflt` for strings: the empty string is falsy. -/
def jsFallback (s dflt : String) : String := if s = "" then dflt else s

/-- `response.ok` of fetch: status in [200, 300). -/
def responseOk (r : HttpResponse) : Bool := 200 ≤ r.status && r.status < 300

/-- `DesktopApiClient.handleResponse`: status 429 throws the rate-limit error
built from the body text (fallback "Too many requests"); a non-JSON content
type throws the "Expected JSON response" error with a 100-character body
excerpt; an unparsable JSON body propagates the parse error; a non-2xx status
throws `data.message` or `HTTP <status>: <statusText>`; otherwise the success
envelope is returned. -/
def handleResponse (r : HttpResponse) : Except ApiError Envelope :=
  if r.status = 429 then
    .error (.rateLimit ("Rate limited: " ++ jsFallback r.bodyText "Too many requests"))
  else if r.contentTypeJson then
    match r.json with
    | some body =>
      if responseOk r then
        .ok { status := "success"
              data := match body.dataField with
                      | some d => d
                      | none => r.bodyText
              message := body.message }
      else
        .error (.http (match body.message with
                       | some m => m
                       | none => "HTTP " ++ toString r.status ++ ": " ++ r.statusText))
    | none => .error (.validation ("JSON parse error: " ++ r.bodyText.take 100))
  else
    .error (.validation ("Expected JSON response, got: " ++ r.bodyText.take 100))

/-- `DesktopApiClient.makeRequest`, with the fetch modelled by the response it
would deliver: without a token no request is made; otherwise exactly one fetch
is issued and `handleResponse`'s result (or error) is propagated unchanged —
there is no retry.  The second component counts the fetches issued. -/
def makeRequest (accessToken : Option String) (response : HttpResponse) :
    Except ApiError Envelope × ℕ :=
  match accessToken with
  | none => (.error (.http "No valid access token available"), 0)
  | some _ => (handleResponse response, 1)

/-- The concrete 429 response of the C8 scenario, with body "slow down". -/
def resp429 : HttpResponse :=
  { status := 429, statusText := "Too Many Requests", contentTypeJson := false,
    bodyText := "slow down", json := none }

/-- C8: a 429 response with body "slow down" makes the client raise the
rate-limit error kind whose message contains "slow down", after exactly one
fetch (no automatic retry). -/
theorem rateLimit429 :
    makeRequest (some "tok") resp429
      = (.error (.rateLimit "Rate limited: slow down"), 1) ∧
    (∃ pre post : String, "Rate limited: slow down" = pre ++ "slow down" ++ post) :=
  ⟨rfl, ⟨"Rate limited: ", "", rfl⟩⟩

end ApiClient

namespace Auth

/-- The four persisted key-value entries of the desktop session store
(ACCESS_TOKEN, REFRESH_TOKEN, USER_DATA, AUTH_STATE); a missing key reads as
`none`. -/
structure Storage where
  accessToken : Option String
  refreshToken : Option String
  userData : Option String
  authState : Option String
  deriving DecidableEq

/-- In-memory state of `DesktopAuthService`: the current user (we keep the
serialized form; `JSON.parse` is modelled as the identity on it), the auth
state string, and the backing storage. -/
structure Service where
  user : Option String
  authState : String
  storage : Storage
  deriving DecidableEq

/-- `notifyListeners`: persists the current auth state under the AUTH_STATE
key, then invokes the listeners (whose behaviour no claim below needs). -/
def notifyListeners (s : Service) : Service :=
  { s with storage := { s.storage with authState := some s.authState } }

/-- `clearAuthData(skipNotification)`: null the user, set the state to
`unauthenticated`, remove all four storage keys, and notify unless skipped. -/
def clearAuthData (skipNotification : Bool) (_s : Service) : Service :=
  let s1 : Service :=
    { user := none
      authState := "unauthenticated"
      storage :=
        { accessToken := none, refreshToken := none,
          userData := none, authState := none } }
  if skipNotification then s1 else notifyListeners s1

/-- `storeTokens`: always persist the access token; persist the refresh token
only when one was supplied. -/
def storeTokens (access : String) (refresh : Option String) (s : Service) : Service :=
  { s with storage :=
      { s.storage with
        accessToken := some access
        refreshToken := match refresh with
                        | some r => some r
                        | none => s.storage.refreshToken } }

/-- Network outcome of one POST to `/api/auth/refresh`: the fetch threw
(network/DNS), the response was non-2xx, or it was 2xx carrying new tokens. -/
inductive RefreshOutcome where
  | transportError
  | httpError
  | success (access : String) (refresh : Option String)
  deriving DecidableEq

/-- `refreshAccessToken(retryCount)` unrolled on the number of retries still
allowed (`retriesLeft = 2 - retryCount`, so the source's guard
`retryCount < 2` is `retriesLeft > 0`).  `oracle n` is the outcome of the
(n+1)-th refresh request; `attempt` counts the requests already made.  Without
a stored refresh token the session is cleared with no request.  A 2xx response
stores the new tokens and returns true; a non-2xx response clears the session
and returns false; a thrown fetch retries while retries remain, then clears
the session and returns false.  Returns (result, state, requests issued). -/
def refreshWithRetries (oracle : ℕ → RefreshOutcome) :
    ℕ → ℕ → Service → Bool × Service × ℕ
  | retriesLeft, attempt, s =>
    match s.storage.refreshToken with
    | none => (false, clearAuthData false s, 0)
    | some _ =>
      match oracle attempt with
      | .success a r => (true, storeTokens a r s, 1)
      | .httpError => (false, clearAuthData false s, 1)
      | .transportError =>
        match retriesLeft with
        | n + 1 =>
          let res := refreshWithRetries oracle n (attempt + 1) s
          (res.1, res.2.1, res.2.2 + 1)
        | 0 => (false, clearAuthData false s, 1)

/-- `refreshAccessToken()` as called externally: `retryCount = 0`, so up to 2
retries remain. -/
def refreshAccessToken (oracle : ℕ → RefreshOutcome) (s : Service) :
    Bool × Service × ℕ :=
  refreshWithRetries oracle 2 0 s

/-- `getAccessToken()`: return `none` without a stored token; return the
stored token when verification succeeds (`verifyOk` is the outcome of
`verifyToken`); otherwise run exactly one refresh chain and return the newly
stored token on success or `none` on failure.  The third component counts the
refresh requests issued. -/
def getAccessToken (verifyOk : Bool) (oracle : ℕ → RefreshOutcome) (s : Service) :
    Option String × Service × ℕ :=
  match s.storage.accessToken with
  | none => (none, s, 0)
  | some token =>
    if verifyOk then (some token, s, 0)
    else
      let r := refreshAccessToken oracle s
      if r.1 then (r.2.1.storage.accessToken, r.2.1, r.2.2)
      else (none, r.2.1, r.2.2)

/-- `init()`: load the four keys (state defaults to `unauthenticated`, user is
the parsed stored user).  With both token and user present, verify the token:
valid sets `authenticated`; invalid attempts a refresh when a refresh token is
stored (clearing auth data when it fails) and otherwise clears auth data.
Token without user, or no token while the stored state claims
`authenticated`, also clear.  Finally `notifyListeners` persists the final
state. -/
def init (verifyOk : Bool) (oracle : ℕ → RefreshOutcome) (st : Storage) : Service :=
  let s0 : Service :=
    { user := st.userData
      authState := st.authState.getD "unauthenticated"
      storage := st }
  let s1 : Service :=
    match st.accessToken, st.userData with
    | some _, some _ =>
      if verifyOk then { s0 with authState := "authenticated" }
      else
        match st.refreshToken with
        | some _ =>
          let r := refreshAccessToken oracle s0
          if r.1 then r.2.1 else clearAuthData true r.2.1
        | none => clearAuthData true s0
    | some _, none => clearAuthData true s0
    | none, _ => if s0.authState = "authenticated" then clearAuthData true s0 else s0
  notifyListeners s1

/-- A refresh endpoint that always answers 2xx with fresh tokens. -/
def refreshAlwaysSucceeds : ℕ → RefreshOutcome :=
  fun _ => .success "newAccess" (some "newRefresh")

/-- C1 counterexample: stored access token, user and refresh token are all
present, verification fails and the refresh call succeeds, yet `init` ends in
state `unauthenticated`, because the successful-refresh path never sets
`authenticated` and the stored state was `unauthenticated`. -/
theorem init_refresh_keeps_stored_state :
    (init false refreshAlwaysSucceeds
      { accessToken := some "expired", refreshToken := some "oldRefresh",
        userData := some "user", authState := some "unauthenticated" }).authState
      = "unauthenticated" ∧
    (init false refreshAlwaysSucceeds
      { accessToken := some "expired", refreshToken := some "oldRefresh",
        userData := some "user", authState := some "unauthenticated" }).authState
      ≠ "authenticated" := by
  constructor
  · rfl
  · decide

/-- C1 (amended): when additionally the persisted auth state is
`authenticated`, an init run with stored token and user, failing verification,
a stored refresh token and a succeeding refresh call finishes in state
`authenticated` with the refreshed tokens persisted to storage. -/
theorem init_refresh_authenticated (oracle : ℕ → RefreshOutcome) (st : Storage)
    (a u r na nr : String)
    (h1 : st.accessToken = some a) (h2 : st.userData = some u)
    (h3 : st.refreshToken = some r) (h4 : st.authState = some "authenticated")
    (h5 : oracle 0 = .success na (some nr)) :
    (init false oracle st).authState = "authenticated" ∧
    (init false oracle st).storage.accessToken = some na ∧
    (init false oracle st).storage.refreshToken = some nr ∧
    (init false oracle st).storage.authState = some "authenticated" := by
  obtain ⟨sa, sr, su, ss⟩ := st
  simp only at h1 h2 h3 h4
  subst h1; subst h2; subst h3; subst h4
  simp [init, refreshAccessToken, refreshWithRetries, h5, notifyListeners, storeTokens]

/-- The C1 witness's concrete stored session: all four keys present with the
persisted state `authenticated`. -/
def storedAuthenticated : Storage :=
  { accessToken := some "expired", refreshToken := some "oldRefresh",
    userData := some "user", authState := some "authenticated" }

/-- C1 witness: the amended theorem at the concrete stored session and the
always-succeeding refresh endpoint. -/
theorem init_refresh_authenticated_witness :
    (init false refreshAlwaysSucceeds storedAuthenticated).authState = "authenticated" ∧
    (init false refreshAlwaysSucceeds storedAuthenticated).storage.accessToken = some "newAccess" ∧
    (init false refreshAlwaysSucceeds storedAuthenticated).storage.refreshToken = some "newRefresh" ∧
    (init false refreshAlwaysSucceeds storedAuthenticated).storage.authState = some "authenticated" :=
  init_refresh_authenticated refreshAlwaysSucceeds storedAuthenticated
    "expired" "user" "oldRefresh" "newAccess" "newRefresh" rfl rfl rfl rfl rfl

theorem refresh_count_le (oracle : ℕ → RefreshOutcome) (s : Service) :
    (refreshAccessToken oracle s).2.2 ≤ 3 := by
  rcases hrt : s.storage.refreshToken with _ | rt <;>
    rcases h0 : oracle 0 with _ | _ | ⟨a0, r0⟩ <;>
      rcases h1 : oracle 1 with _ | _ | ⟨a1, r1⟩ <;>
        rcases h2 : oracle 2 with _ | _ | ⟨a2, r2⟩ <;>
          simp [refreshAccessToken, refreshWithRetries, hrt, h0, h1, h2]

theorem refresh_retries_transport (oracle : ℕ → RefreshOutcome) (s : Service) :
    ∀ k, k + 1 < (refreshAccessToken oracle s).2.2 → oracle k = .transportError := by
  rcases hrt : s.storage.refreshToken with _ | rt <;>
    rcases h0 : oracle 0 with _ | _ | ⟨a0, r0⟩ <;>
      rcases h1 : oracle 1 with _ | _ | ⟨a1, r1⟩ <;>
        rcases h2 : oracle 2 with _ | _ | ⟨a2, r2⟩ <;>
          simp [refreshAccessToken, refreshWithRetries, hrt, h0, h1, h2] <;>
            (intro k hk
             first
             | omega
             | (have hk2 : k ≤ 1 := by omega
                interval_cases k <;> first | omega | simp_all))

theorem refresh_http_stops (oracle : ℕ → RefreshOutcome) (s : Service) :
    ∀ k, k < (refreshAccessToken oracle s).2.2 → oracle k = .httpError →
      (refreshAccessToken oracle s).2.2 = k + 1 ∧
      (refreshAccessToken oracle s).2.1.authState = "unauthenticated" := by
  rcases hrt : s.storage.refreshToken with _ | rt <;>
    rcases h0 : oracle 0 with _ | _ | ⟨a0, r0⟩ <;>
      rcases h1 : oracle 1 with _ | _ | ⟨a1, r1⟩ <;>
        rcases h2 : oracle 2 with _ | _ | ⟨a2, r2⟩ <;>
          simp [refreshAccessToken, refreshWithRetries, hrt, h0, h1, h2,
            clearAuthData, notifyListeners] <;>
            (intro k hk
             first
             | omega
             | (have hk2 : k ≤ 2 := by omega
                interval_cases k <;> first | omega | simp_all))

theorem refresh_false_unauth (oracle : ℕ → RefreshOutcome) (s : Service) :
    (refreshAccessToken oracle s).1 = false →
      (refreshAccessToken oracle s).2.1.authState = "unauthenticated" := by
  rcases hrt : s.storage.refreshToken with _ | rt <;>
    rcases h0 : oracle 0 with _ | _ | ⟨a0, r0⟩ <;>
      rcases h1 : oracle 1 with _ | _ | ⟨a1, r1⟩ <;>
        rcases h2 : oracle 2 with _ | _ | ⟨a2, r2⟩ <;>
          simp [refreshAccessToken, refreshWithRetries, hrt, h0, h1, h2,
            clearAuthData, notifyListeners]

theorem refresh_true_some (oracle : ℕ → RefreshOutcome) (s : Service) :
    (refreshAccessToken oracle s).1 = true →
      ∃ a, (refreshAccessToken oracle s).2.1.storage.accessToken = some a := by
  rcases hrt : s.storage.refreshToken with _ | rt <;>
    rcases h0 : oracle 0 with _ | _ | ⟨a0, r0⟩ <;>
      rcases h1 : oracle 1 with _ | _ | ⟨a1, r1⟩ <;>
        rcases h2 : oracle 2 with _ | _ | ⟨a2, r2⟩ <;>
          simp [refreshAccessToken, refreshWithRetries, hrt, h0, h1, h2,
            clearAuthData, notifyListeners, storeTokens]

theorem getAccessToken_false_eq (oracle : ℕ → RefreshOutcome) (s : Service)
    (t : String) (h : s.storage.accessToken = some t) :
    getAccessToken false oracle s =
      (if (refreshAccessToken oracle s).1 then
        (refreshAccessToken oracle s).2.1.storage.accessToken else none,
       (refreshAccessToken oracle s).2.1, (refreshAccessToken oracle s).2.2) := by
  rcases hb : (refreshAccessToken oracle s).1 with _ | _ <;>
    simp [getAccessToken, h, hb]

/-- C6: when a stored token exists and its verification fails, exactly one
refresh chain runs: at most 3 refresh requests (1 + 2 retries); every request
after the first happens only because the previous one was a transport failure;
a non-2xx refresh response ends the chain immediately with the session
cleared; and a terminal failure returns `none` with the state
`unauthenticated`. -/
theorem getAccessToken_refresh_chain (oracle : ℕ → RefreshOutcome) (s : Service)
    (t : String) (h : s.storage.accessToken = some t) :
    (getAccessToken false oracle s).2.2 ≤ 3 ∧
    (∀ k, k + 1 < (getAccessToken false oracle s).2.2 →
      oracle k = .transportError) ∧
    (∀ k, k < (getAccessToken false oracle s).2.2 → oracle k = .httpError →
      (getAccessToken false oracle s).2.2 = k + 1 ∧
      (getAccessToken false oracle s).2.1.authState = "unauthenticated") ∧
    ((getAccessToken false oracle s).1 = none →
      (getAccessToken false oracle s).2.1.authState = "unauthenticated") := by
  have he := getAccessToken_false_eq oracle s t h
  rw [he]
  refine ⟨?_, ?_, ?_, ?_⟩
  · simpa using refresh_count_le oracle s
  · simpa using refresh_retries_transport oracle s
  · simpa using refresh_http_stops oracle s
  · intro hres
    by_cases hb : (refreshAccessToken oracle s).1 = true
    · obtain ⟨a, ha⟩ := refresh_true_some oracle s hb
      simp [hb, ha] at hres
    · have hb2 : (refreshAccessToken oracle s).1 = false := by
        revert hb
        rcases (refreshAccessToken oracle s).1 with _ | _ <;> simp
      simpa using refresh_false_unauth oracle s hb2

/-- The C6 witness's concrete service state: all keys stored, authenticated. -/
def svcWithToken : Service :=
  { user := some "user", authState := "authenticated",
    storage := { accessToken := some "tok", refreshToken := some "ref",
                 userData := some "user", authState := some "authenticated" } }

/-- A refresh endpoint that always answers non-2xx. -/
def refreshAlwaysHttpError : ℕ → RefreshOutcome := fun _ => .httpError

/-- C6 witness: the refresh-chain theorem at a concrete state whose refresh
endpoint answers non-2xx: the chain makes at most 3 requests and the terminal
failure leaves the state `unauthenticated`. -/
theorem getAccessToken_refresh_chain_witness :
    svcWithToken.storage.accessToken = some "tok" ∧
    (getAccessToken false refreshAlwaysHttpError svcWithToken).2.2 ≤ 3 ∧
    (getAccessToken false refreshAlwaysHttpError svcWithToken).2.1.authState
      = "unauthenticated" :=
  ⟨rfl,
    (getAccessToken_refresh_chain refreshAlwaysHttpError svcWithToken "tok" rfl).1,
    (getAccessToken_refresh_chain refreshAlwaysHttpError svcWithToken "tok" rfl).2.2.2 rfl⟩

end Auth
